import Mathlib

/-!
Verification development for the caseys-panel pipeline engine.

Shallow embedding of the core modules:
  * `app/validation/output_validator.py`  (Output Normalizer)
  * `app/agents/base.py`                  (Retry/Fallback Executor)
  * `app/services/checkpointer.py`        (Checkpoint Store, run status)
  * `app/api/workflows.py`                (cancel / resume / terminal status write)
  * `app/graph/workflow.py`               (stage-A fan-out and resume re-entry)
  * `app/safety/rules.py`                 (Safety Rule Engine)

Python dynamic values are embedded as `PyVal`; code that can raise is
embedded in `Except String`.  String helpers mirror the Python `str`
methods on the ASCII strings the system works with.
-/

namespace Caseys

/-- Embedding of the Python values the validator manipulates
(JSON-serializable dicts of strings, numbers, booleans, lists, dicts). -/
inductive PyVal where
  | pstr (s : String)
  | pint (n : Int)
  | pbool (b : Bool)
  | pnone
  | plist (xs : List PyVal)
  | pdict (kvs : List (String × PyVal))

/-- A Python dict with string keys, in insertion order. -/
abbrev Dict := List (String × PyVal)

/-- Python truthiness (`bool(v)`): empty string/list/dict, 0, False and None
are falsy. -/
def truthy : PyVal → Bool
  | .pstr s => !(s == "")
  | .pint n => !(n == 0)
  | .pbool b => b
  | .pnone => false
  | .plist xs => !xs.isEmpty
  | .pdict kvs => !kvs.isEmpty

/-- `d.get(k)` — first binding for `k`, if any. -/
def dictGetOpt : Dict → String → Option PyVal
  | [], _ => none
  | kv :: rest, k => if kv.1 = k then some kv.2 else dictGetOpt rest k

/-- `d.get(k, default)`. -/
def dictGet (d : Dict) (k : String) (dflt : PyVal) : PyVal :=
  (dictGetOpt d k).getD dflt

/-- `d[k] = v` — replace the first binding for `k`, or append a new one
(Python dicts keep insertion order on update). -/
def dictSet : Dict → String → PyVal → Dict
  | [], k, v => [(k, v)]
  | kv :: rest, k, v => if kv.1 = k then (k, v) :: rest else kv :: dictSet rest k v

/-- Characters stripped by Python `str.strip()` with no argument. -/
def isPySpace (c : Char) : Bool :=
  c = ' ' || c = '\t' || c = '\n' || c = '\r' || c = '\x0b' || c = '\x0c'

/-- Python `str.lstrip()` (whitespace). -/
def pyLstripWs (s : String) : String := ⟨s.toList.dropWhile isPySpace⟩

/-- Python `str.rstrip()` (whitespace). -/
def pyRstrip (s : String) : String := ⟨(s.toList.reverse.dropWhile isPySpace).reverse⟩

/-- Python `str.strip()` (whitespace). -/
def pyStrip (s : String) : String := pyRstrip (pyLstripWs s)

/-- Python `str.lstrip("-•* ")` as used for bullet repair. -/
def pyLstripBullets (s : String) : String :=
  ⟨s.toList.dropWhile (fun c => c = '-' || c = '•' || c = '*' || c = ' ')⟩

/-- Python `str.upper()` (ASCII scope). -/
def pyUpper (s : String) : String := ⟨s.toList.map Char.toUpper⟩

/-- Python `str.lower()` (ASCII scope). -/
def pyLower (s : String) : String := ⟨s.toList.map Char.toLower⟩

/-- Python `str.capitalize()`: first character upper-cased, all remaining
characters lower-cased (ASCII scope). -/
def pyCapitalize (s : String) : String :=
  match s.toList with
  | [] => ""
  | c :: cs => ⟨Char.toUpper c :: cs.map Char.toLower⟩

/-- Python `str.isalpha()` (ASCII scope): nonempty and all alphabetic. -/
def pyIsAlpha (s : String) : Bool :=
  !s.toList.isEmpty && s.toList.all Char.isAlpha

/-- `s.startswith(pre)` (structural implementation). -/
def strStartsWith (s pre : String) : Bool :=
  pre.toList.isPrefixOf s.toList

/-- `s.endswith(suf)` (structural implementation). -/
def strEndsWith (s suf : String) : Bool :=
  suf.toList.reverse.isPrefixOf s.toList.reverse

/-- Split a character list at every character satisfying `p` (empty
pieces between consecutive separators are kept). -/
def splitByChar (p : Char → Bool) : List Char → List (List Char)
  | [] => [[]]
  | c :: cs =>
    if p c then [] :: splitByChar p cs
    else
      match splitByChar p cs with
      | [] => [[c]]
      | w :: ws => (c :: w) :: ws

/-- Split a string at every character satisfying `p`. -/
def pySplitParts (p : Char → Bool) (s : String) : List String :=
  (splitByChar p s.toList).map (fun cs => ⟨cs⟩)

/-- `sep.join(parts)` (structural implementation). -/
def strJoin (sep : String) : List String → String
  | [] => ""
  | [x] => x
  | x :: y :: xs => x ++ sep ++ strJoin sep (y :: xs)

/-- Python `str.split()` with no argument: split on whitespace runs,
no empty pieces. -/
def pySplitWs (s : String) : List String :=
  (pySplitParts isPySpace s).filter (fun w => !(w == ""))

/-- The suffixes of a list, longest first (including the empty suffix). -/
def suffixes : List Char → List (List Char)
  | [] => [[]]
  | c :: cs => (c :: cs) :: suffixes cs

/-- Python `needle in hay` for strings: substring containment. -/
def strContains (hay needle : String) : Bool :=
  (suffixes hay.toList).any (fun t => needle.toList.isPrefixOf t)

/-- Python `str.splitlines()` restricted to `\n` separators: like
`split("\n")` except that a trailing newline yields no trailing empty
line and the empty string yields no lines. -/
def pySplitlines (s : String) : List String :=
  if s = "" then []
  else
    let parts := pySplitParts (fun c => c = '\n') s
    if strEndsWith s "\n" then parts.dropLast else parts

/-- The line 61 title-casing of `output_validator.py`:
`" ".join(w.capitalize() if w.isalpha() else w for w in heading.split())`. -/
def pyTitleCase (s : String) : String :=
  strJoin " " ((pySplitWs s).map (fun w => if pyIsAlpha w then pyCapitalize w else w))

/-- Python `"x" == v` where the left operand is a string: equal only to an
equal string. -/
def pyEqStr (s : String) : PyVal → Bool
  | .pstr t => s == t
  | _ => false

/-- Python `needle in v` (the membership operator): substring test on
strings, element equality on lists, key membership on dicts;
raises `TypeError` on ints, booleans and `None`. -/
def pyInOp (needle : String) : PyVal → Except String Bool
  | .pstr h => .ok (strContains h needle)
  | .plist xs => .ok (xs.any (pyEqStr needle))
  | .pdict kvs => .ok (kvs.any (fun kv => kv.1 == needle))
  | _ => .error "TypeError: argument of membership test is not iterable"

/-! ## Output Normalizer (`app/validation/output_validator.py`) -/

/-- Agent 4 per-line repair (lines 30-38 of `output_validator.py`):
heading lines (`#`) and blank lines are kept, lines already starting with
a bullet marker (`"- "` or `"* "` after left-stripping whitespace) are
kept, any other nonempty line is rewritten to `"- " + ln.lstrip("-•* ")`.
Returns the resulting line and whether it was changed. -/
def fixPELine (ln : String) : String × Bool :=
  if strStartsWith (pyStrip ln) "#" then (ln, false)
  else if !(pyStrip ln == "") && !(strStartsWith (pyLstripWs ln) "- ") &&
      !(strStartsWith (pyLstripWs ln) "* ") then
    ("- " ++ pyLstripBullets ln, true)
  else (ln, false)

/-- Agent 4 line loop: rebuilt line list plus the `changed` flag. -/
def fixPELines : List String → List String × Bool
  | [] => ([], false)
  | ln :: rest =>
    let r := fixPELine ln
    let rr := fixPELines rest
    (r.1 :: rr.1, r.2 || rr.2)

/-- Agent 4 block of `validate_agent_output` (lines 24-42). -/
def validate4 (output : Dict) : Except String (Dict × List String × Bool) := do
  let peMd := dictGet output "content_md" (.pstr "")
  let c ← pyInOp "Physical Exam" peMd
  if c then
    match peMd with
    | .pstr s =>
      let r := fixPELines (pySplitlines s)
      if r.2 then
        pure (dictSet output "content_md" (.pstr (strJoin "\n" r.1)),
              ["Normalized Physical Exam bullet formatting"], true)
      else pure (output, [], false)
    | _ => .error "AttributeError: object has no attribute splitlines"
  else pure (output, [], false)

/-- Agent 7 POA-tag step (lines 54-59): if `"POA"` does not occur in the
upper-cased heading, append `" (POA)"`, record an issue quoting the
original heading, and mark repaired. -/
def poaStep (origHeading : String) (p : Dict) (s : String) : Dict × String × List String × Bool :=
  if !(strContains (pyUpper s) "POA") then
    let s2 := s ++ " (POA)"
    (dictSet p "heading" (.pstr s2), s2,
     ["Added POA tag to problem heading \x27" ++ origHeading ++ "\x27"], true)
  else (p, s, [], false)

/-- Agent 7 title-case step (lines 60-67): rewrite the heading to its
per-word capitalized form when that differs, recording an issue quoting
the pre-rewrite heading. -/
def titleStep (p : Dict) (s : String) : Dict × String × List String × Bool :=
  let tc := pyTitleCase s
  if !(tc == s) then
    (dictSet p "heading" (.pstr tc), tc,
     ["Title-cased problem heading \x27" ++ s ++ "\x27"], true)
  else (p, s, [], false)

/-- Minimal numeric suffix `n ≥ 2` making `s ++ " #" ++ n` fresh with
respect to `seen` (lines 70-75: the `while` loop searching for an unused
suffix; bounded search — among `seen.length + 1` candidates one is free). -/
def findSuffix (seen : List String) (s : String) : Nat :=
  match (List.range (seen.length + 1)).find?
      (fun i => !(seen.contains (pyLower (s ++ " #" ++ toString (i + 2))))) with
  | some i => i + 2
  | none => seen.length + 2

/-- Agent 7 duplicate-heading step (lines 68-79): if the lower-cased
heading was already seen, append the first free ` #n` suffix, record an
issue, and mark repaired. -/
def dedupStep (seen : List String) (p : Dict) (s : String) : Dict × String × List String × Bool :=
  if seen.contains (pyLower s) then
    let nh := s ++ " #" ++ toString (findSuffix seen s)
    (dictSet p "heading" (.pstr nh), nh,
     ["Disambiguated duplicate heading \x27" ++ s ++ "\x27 -> \x27" ++ nh ++ "\x27"], true)
  else (p, s, [], false)

/-- `seen_headings.add(k)` on the set of seen headings (modelled as a
duplicate-free list). -/
def setAdd (seen : List String) (k : String) : List String :=
  if seen.contains k then seen else seen ++ [k]

/-- Agent 7 per-plan-item repair (lines 86-97): non-strings are skipped
(dropped from the rebuilt list), strings are stripped, prefixed with
`"[] "` when the `"[]"` marker is missing and terminated with a period
when missing; the flag records whether any marker/period was added. -/
def fixPlanItem (acc : List PyVal × Bool) (item : PyVal) : List PyVal × Bool :=
  match item with
  | .pstr s =>
    let itm0 := pyStrip s
    let r1 := if !(strStartsWith itm0 "[]") then ("[] " ++ itm0, true) else (itm0, false)
    let r2 := if !(strEndsWith (pyRstrip r1.1) ".") then (pyRstrip r1.1 ++ ".", true) else (r1.1, false)
    (acc.1 ++ [.pstr r2.1], acc.2 || r1.2 || r2.2)
  | _ => acc

/-- Agent 7 plan block (lines 81-103): when `p["plan"]` is a list, repair
each item; if anything changed, store the rebuilt plan and record the two
issue strings. -/
def planStep (p : Dict) : Dict × List String × Bool :=
  match dictGetOpt p "plan" with
  | some (.plist items) =>
    let r := items.foldl fixPlanItem ([], false)
    if r.2 then
      (dictSet p "plan" (.plist r.1),
       ["Bracketed plan items for problem heading", "Normalized plan item formatting"], true)
    else (p, [], false)
  | _ => (p, [], false)

/-- Agent 7 processing of one problem dict (lines 48-103), given the set
of already-seen lower-cased headings.  A truthy non-string heading raises
(`heading.upper()` on a non-string), mirroring the Python `AttributeError`. -/
def processOne (seen : List String) (p : Dict) : Except String (Dict × List String × Bool × List String) := do
  let h0 := dictGet p "heading" (.pstr "")
  let h1 := if truthy h0 then h0 else .pstr ""
  let r ←
    if truthy h1 then
      match h1 with
      | .pstr s => do
        let ra := poaStep s p s
        let rb := titleStep ra.1 ra.2.1
        let rc := dedupStep seen rb.1 rb.2.1
        pure (rc.1, ra.2.2.1 ++ rb.2.2.1 ++ rc.2.2.1,
              ra.2.2.2 || rb.2.2.2 || rc.2.2.2, setAdd seen (pyLower rc.2.1))
      | _ => Except.error "AttributeError: object has no attribute upper"
    else pure (p, ([] : List String), false, seen)
  let rp := planStep r.1
  pure (rp.1, r.2.1 ++ rp.2.1, r.2.2.1 || rp.2.2, r.2.2.2)

/-- Agent 7 loop over the problems list (line 48): non-dict entries are
skipped unchanged, dict entries are processed threading the seen-heading
set; issues concatenate in loop order and `repaired` is the disjunction. -/
def processProblems (seen : List String) : List PyVal → Except String (List PyVal × List String × Bool)
  | [] => pure ([], [], false)
  | p :: rest =>
    match p with
    | .pdict kvs => do
      let r ← processOne seen kvs
      let rr ← processProblems r.2.2.2 rest
      pure (.pdict r.1 :: rr.1, r.2.1 ++ rr.2.1, r.2.2.1 || rr.2.2)
    | _ => do
      let rr ← processProblems seen rest
      pure (p :: rr.1, rr.2.1, rr.2.2)

/-- Agent 7 block of `validate_agent_output` (lines 44-103): if
`output.get("problems")` is a list, process it (the Python code mutates
the problem dicts in place; here the rebuilt list is stored back). -/
def validate7 (output : Dict) : Except String (Dict × List String × Bool) :=
  match dictGetOpt output "problems" with
  | some (.plist ps) => do
    let r ← processProblems [] ps
    pure (dictSet output "problems" (.plist r.1), r.2.1, r.2.2)
  | _ => pure (output, [], false)

/-- `validate_agent_output(agent_no, output_dict)` (lines 10-104).
Returns `(possibly modified output, issues, repaired)`, or an error when
the Python code would raise.  The two per-agent blocks are guarded by
`agent_no` so only one can run for a given call. -/
def validate_agent_output (agent_no : Int) (output_dict : Dict) : Except String (Dict × List String × Bool) :=
  if agent_no = 4 then validate4 output_dict
  else if agent_no = 7 then validate7 output_dict
  else pure (output_dict, [], false)

/-- `Except` success test. -/
def exceptOk : Except String α → Bool
  | .ok _ => true
  | .error _ => false

/-! ### Compliance and well-typedness predicates for the Normalizer

`compliant` holds exactly when none of the repair branches of
`validate_agent_output` fires (the "already-compliant" inputs of the
spec); `wellTyped` holds when the dynamically-typed fields the validator
inspects have the types it expects, which is what rules out the
`AttributeError` / `TypeError` paths. -/

/-- A line of an agent 4 Physical Exam block that the bullet rule leaves
unchanged. -/
def lineCompliant (ln : String) : Bool :=
  strStartsWith (pyStrip ln) "#" || pyStrip ln == "" ||
    strStartsWith (pyLstripWs ln) "- " || strStartsWith (pyLstripWs ln) "* "

/-- Agent 4 compliance: the `content_md` value does not make the block
raise, and when it is a string containing "Physical Exam" every line is
already bullet-compliant. -/
def compliant4 (o : Dict) : Bool :=
  match dictGet o "content_md" (.pstr "") with
  | .pstr s => !(strContains s "Physical Exam") || (pySplitlines s).all lineCompliant
  | .plist xs => !(xs.any (pyEqStr "Physical Exam"))
  | .pdict kvs => !(kvs.any (fun kv => kv.1 == "Physical Exam"))
  | _ => false

/-- A plan item the agent 7 plan rule leaves unchanged: non-strings are
skipped, strings must carry the `"[]"` marker and end with a period. -/
def planItemCompliant : PyVal → Bool
  | .pstr s => strStartsWith (pyStrip s) "[]" && strEndsWith (pyRstrip (pyStrip s)) "."
  | _ => true

/-- Whether the plan block of one problem dict fires no repair. -/
def planCompliant (p : Dict) : Bool :=
  match dictGetOpt p "plan" with
  | some (.plist items) => items.all planItemCompliant
  | _ => true

/-- Whether the heading rules of one problem dict fire no repair given
the already-seen lower-cased headings: a falsy heading is skipped; a
truthy heading must be a string that already carries the POA tag, equals
its title-cased form, and is not a (case-insensitive) duplicate. -/
def headingCompliant (seen : List String) (p : Dict) : Bool :=
  let h := dictGet p "heading" (.pstr "")
  if truthy h then
    match h with
    | .pstr s =>
      strContains (pyUpper s) "POA" && pyTitleCase s == s && !(seen.contains (pyLower s))
    | _ => false
  else true

/-- The seen-heading set after one problem dict is processed without
repair. -/
def seenAfter (seen : List String) (p : Dict) : List String :=
  let h := dictGet p "heading" (.pstr "")
  if truthy h then
    match h with
    | .pstr s => setAdd seen (pyLower s)
    | _ => seen
  else seen

/-- Compliance of a problems list, threading the seen-heading set. -/
def compliantProblems (seen : List String) : List PyVal → Bool
  | [] => true
  | p :: rest =>
    match p with
    | .pdict kvs =>
      headingCompliant seen kvs && planCompliant kvs &&
        compliantProblems (seenAfter seen kvs) rest
    | _ => compliantProblems seen rest

/-- Agent 7 compliance: when `output.get("problems")` is a list, every
problem is compliant. -/
def compliant7 (o : Dict) : Bool :=
  match dictGetOpt o "problems" with
  | some (.plist ps) => compliantProblems [] ps
  | _ => true

/-- Already-compliant input for `validate_agent_output`: no repair branch
fires for the given agent number. -/
def compliant (agent_no : Int) (o : Dict) : Bool :=
  if agent_no = 4 then compliant4 o
  else if agent_no = 7 then compliant7 o
  else true

/-- A problem entry whose heading value cannot raise: either not a dict,
or its heading is falsy or a string. -/
def headingWellTyped : PyVal → Bool
  | .pdict kvs =>
    let h := dictGet kvs "heading" (.pstr "")
    !(truthy h) || (match h with | .pstr _ => true | _ => false)
  | _ => true

/-- Well-typedness of the fields `validate_agent_output` inspects: the
`content_md` value (when the key is read, `""` by default) is a string,
and every problem entry has a string-or-falsy heading. -/
def wellTyped (o : Dict) : Bool :=
  (match dictGet o "content_md" (.pstr "") with | .pstr _ => true | _ => false) &&
  (match dictGetOpt o "problems" with
   | some (.plist ps) => ps.all headingWellTyped
   | _ => true)

/-! ## Retry/Fallback Executor (`app/agents/base.py`) -/

/-- The executor's error taxonomy (`TransientAgentError`,
`PermanentAgentError`, any other exception). -/
inductive AgentError where
  | transient
  | permanent
  | other
  deriving DecidableEq, Repr

/-- `BaseAgent.__init__`: `self.max_retries = 4`. -/
def maxRetries : Nat := 4

/-- Line 71 of `base.py`: `retryable = isinstance(e, TransientAgentError)
or not isinstance(e, PermanentAgentError)`. -/
def retryableB (e : AgentError) : Bool :=
  (e == .transient) || !(e == .permanent)

/-- Result of the primary retry loop (lines 40-89): the successful value
if any, the last error, the number of `process` invocations made, and the
final value of the `attempts` counter. -/
structure LoopRes (α : Type) where
  value : Option α
  lastError : Option AgentError
  calls : Nat
  attempts : Nat
  deriving Repr

/-- The `for attempt in range(self.max_retries)` loop of
`run_with_retry`, with `remaining` iterations left and `base` attempts
already made.  `process n` is the n-th (1-based) invocation of the
stage's work.  A retryable error with attempts remaining continues;
otherwise the loop breaks with the last error. -/
def retryLoop (process : Nat → Except AgentError α) : Nat → Nat → LoopRes α
  | 0, base => ⟨none, none, 0, base⟩
  | n + 1, base =>
    match process (base + 1) with
    | .ok a => ⟨some a, none, 1, base + 1⟩
    | .error e =>
      if n ≠ 0 && retryableB e then
        let r := retryLoop process n (base + 1)
        ⟨r.value, r.lastError <|> some e, r.calls + 1, r.attempts⟩
      else ⟨none, some e, 1, base + 1⟩

/-- Terminal outcome of one executor invocation: primary success,
fallback success, re-raised primary error, or `FallbackExhaustedError`. -/
inductive RunOutcome (α : Type) where
  | success (a : α) (attempts : Nat) (fallbackUsed : Bool)
  | failure (e : AgentError)
  | fallbackExhausted (e : AgentError)
  deriving Repr

/-- Observable result of `run_with_retry`: the outcome plus how many
times the primary work and the fallback were invoked. -/
structure RunResult (α : Type) where
  outcome : RunOutcome α
  processCalls : Nat
  fallbackCalls : Nat
  deriving Repr

/-- `BaseAgent.run_with_retry` (lines 35-132): run the primary loop; on
primary success return it (fallback never invoked); otherwise invoke the
fallback exactly once — a non-`None` fallback result is returned with
`fallback_used`, a raising fallback becomes `FallbackExhaustedError`, and
a `None` fallback re-raises the last primary error. -/
def runWithRetry (process : Nat → Except AgentError α) (fallback : Except AgentError (Option α)) : RunResult α :=
  let r := retryLoop process maxRetries 0
  match r.value with
  | some a => ⟨.success a r.attempts false, r.calls, 0⟩
  | none =>
    let out : RunOutcome α :=
      match fallback with
      | .ok (some b) => .success b r.attempts true
      | .ok none => .failure (r.lastError.getD .other)
      | .error fe => .fallbackExhausted fe
    ⟨out, r.calls, 1⟩

/-! ## Checkpoint Store (`app/services/checkpointer.py`) -/

/-- Key-sorted insertion for the canonical (``sort_keys=True``) dict
serialization, over already-rendered `(key, rendered value)` pairs. -/
def strLtB : List Char → List Char → Bool
  | [], [] => false
  | [], _ :: _ => true
  | _ :: _, [] => false
  | c :: cs, d :: ds => if c < d then true else if d < c then false else strLtB cs ds

/-- Insert a rendered pair keeping keys sorted. -/
def insertPair (kv : String × String) : List (String × String) → List (String × String)
  | [] => [kv]
  | kv2 :: rest =>
    if strLtB kv2.1.toList kv.1.toList then kv2 :: insertPair kv rest
    else kv :: kv2 :: rest

/-- Sort rendered pairs by key (insertion sort; Python dict keys are
unique, so ties do not arise). -/
def sortPairs : List (String × String) → List (String × String)
  | [] => []
  | kv :: rest => insertPair kv (sortPairs rest)

mutual

/-- `json.dumps(state, sort_keys=True)`: the canonical serialization
`save_checkpoint` hashes (line 28).  Dict keys are emitted in sorted
order; separators follow the Python defaults. -/
def canonicalJson : PyVal → String
  | .pstr s => "\"" ++ s ++ "\""
  | .pint n => toString n
  | .pbool b => if b then "true" else "false"
  | .pnone => "null"
  | .plist xs => "[" ++ strJoin ", " (canonList xs) ++ "]"
  | .pdict kvs =>
    "\x7b" ++
      strJoin ", "
        ((sortPairs (canonKvs kvs)).map (fun kv => "\"" ++ kv.1 ++ "\": " ++ kv.2)) ++
      "\x7d"

/-- Serialize the elements of a JSON list. -/
def canonList : List PyVal → List String
  | [] => []
  | x :: xs => canonicalJson x :: canonList xs

/-- Render the entries of a JSON dict as `(key, serialized value)`. -/
def canonKvs : List (String × PyVal) → List (String × String)
  | [] => []
  | kv :: rest => (kv.1, canonicalJson kv.2) :: canonKvs rest

end

/-- The content hash of a checkpoint state
(`hashlib.sha256(serialized).hexdigest()`, line 29).  SHA-256 is a fixed
injective-in-practice function of the canonical serialization; it is
modelled by the serialization itself, so two states collide exactly when
their canonical serializations are byte-identical — the reading the spec
itself uses ("canonical serialization (and hence content hash)"). -/
def stateHash (state : PyVal) : String := canonicalJson state

/-- One row of the `checkpoints` table (id, run, stage key, content hash,
state blob). -/
structure CpRow where
  id : Nat
  runId : String
  nodeKey : String
  stateHash : String
  stateJson : PyVal

/-- The checkpoint table plus the next fresh primary key. -/
structure CpStore where
  rows : List CpRow
  nextId : Nat

/-- Store invariant: every row id was allocated below the counter. -/
def CpStore.wfb (st : CpStore) : Bool :=
  st.rows.all (fun r => r.id < st.nextId)

/-- No existing row for this `(run, stage, hash)` triple. -/
def noRowB (st : CpStore) (runId nodeKey h : String) : Bool :=
  st.rows.all (fun r => !(r.runId == runId && r.nodeKey == nodeKey && r.stateHash == h))

/-- `PostgresCheckpointer.save_checkpoint` (lines 22-47): hash the
canonical serialization; if a row with the same `(run, stage, hash)`
exists return its id without writing, else insert a fresh row and return
its id. -/
def saveCheckpoint (st : CpStore) (runId nodeKey : String) (state : PyVal) : Nat × CpStore :=
  let h := stateHash state
  match st.rows.find? (fun r => r.runId == runId && r.nodeKey == nodeKey && r.stateHash == h) with
  | some r => (r.id, st)
  | none => (st.nextId, ⟨st.rows ++ [⟨st.nextId, runId, nodeKey, h, state⟩], st.nextId + 1⟩)

/-! ## Run status state machine
(`app/services/models.py`, `app/api/workflows.py`) -/

/-- `WorkflowStatus`. -/
inductive RunStatus where
  | pending
  | running
  | completed
  | failed
  | cancelled
  deriving DecidableEq, Repr

/-- Terminal statuses (`{COMPLETED, FAILED, CANCELLED}`). -/
def RunStatus.isTerminal : RunStatus → Bool
  | .completed => true
  | .failed => true
  | .cancelled => true
  | _ => false

/-- `cancel_workflow` (lines 290-313 of `workflows.py`): HTTP 400
"Workflow already terminal" when the run is terminal, else persist
`cancelled`. -/
def cancelWorkflow (s : RunStatus) : Except String RunStatus :=
  if s.isTerminal then .error "Workflow already terminal"
  else .ok .cancelled

/-- The status transition of `resume_workflow` (lines 314-381): HTTP 400
"Workflow not resumable" unless the status is `failed`, `running` or
`pending`; on resume the run is set back to `running`. -/
def resumeWorkflowStatus (s : RunStatus) : Except String RunStatus :=
  if s = .failed || s = .running || s = .pending then .ok .running
  else .error "Workflow not resumable"

/-- The terminal-status write at the natural termination of
`run_workflow_async` (lines 79-106): re-read the persisted status; if it
is `cancelled` skip the overwrite, otherwise write `failed` when the
final state accumulated errors and `completed` otherwise. -/
def finishWorkflow (persisted : RunStatus) (hasErrors : Bool) : RunStatus :=
  if persisted = .cancelled then persisted
  else if hasErrors then .failed
  else .completed

/-! ## Resume reconstruction and stage-A re-entry
(`app/api/workflows.py` lines 327-366, `app/graph/workflow.py` lines 56-118) -/

/-- One checkpoint row as consumed by `resume_workflow` (node key, the
`status` field of the state blob, and its `output`; outputs are opaque
payloads here). -/
structure CpRec where
  nodeKey : String
  status : String
  output : Nat
  deriving DecidableEq, Repr

/-- Assignment into one of the per-phase output maps
(`stage_a_outputs[node] = out`). -/
def mapSet : List (String × Nat) → String → Nat → List (String × Nat)
  | [], k, v => [(k, v)]
  | kv :: rest, k, v => if kv.1 = k then (k, v) :: rest else kv :: mapSet rest k v

/-- Lookup in a per-phase output map. -/
def mapGet : List (String × Nat) → String → Option Nat
  | [], _ => none
  | kv :: rest, k => if kv.1 = k then some kv.2 else mapGet rest k

/-- Decimal digits to a number (`int(...)` on a digit string). -/
def digitsToNat (cs : List Char) : Option Nat :=
  if cs.isEmpty then none
  else if cs.all Char.isDigit then
    some (cs.foldl (fun n c => n * 10 + (c.toNat - 48)) 0)
  else none

/-- `int(node.split("_")[1])` for keys of the form `agent_<n>`
(`resume_workflow` only parses keys passing `node.startswith("agent_")`). -/
def parseAgentNum (node : String) : Option Nat :=
  match node.toList with
  | 'a' :: 'g' :: 'e' :: 'n' :: 't' :: '_' :: rest => digitsToNat rest
  | _ => none

/-- The `WorkflowState` fields `resume_workflow` rebuilds. -/
structure RebuiltState where
  stageAOutputs : List (String × Nat)
  stageBOutputs : List (String × Nat)
  stageCOutputs : List (String × Nat)
  completedNodes : List String
  deriving DecidableEq, Repr

/-- The checkpoint-partitioning loop of `resume_workflow` (lines
333-347): every row whose state has `status == "completed"` appends its
node to `completed_nodes` and stores its output in the phase bucket for
its agent number (1-6 → A, 7-9 → B, 10 → C). -/
def rebuildState (cps : List CpRec) : RebuiltState :=
  cps.foldl
    (fun st cp =>
      if cp.status == "completed" then
        let st := { st with completedNodes := st.completedNodes ++ [cp.nodeKey] }
        match parseAgentNum cp.nodeKey with
        | some n =>
          if 1 ≤ n && n ≤ 6 then
            { st with stageAOutputs := mapSet st.stageAOutputs cp.nodeKey cp.output }
          else if n = 7 || n = 8 || n = 9 then
            { st with stageBOutputs := mapSet st.stageBOutputs cp.nodeKey cp.output }
          else if n = 10 then
            { st with stageCOutputs := mapSet st.stageCOutputs cp.nodeKey cp.output }
          else st
        | none => st
      else st)
    ⟨[], [], [], []⟩

/-- The full-completion check of `resume_workflow` (line 350):
`{agent_1..agent_10} ⊆ completed_nodes`. -/
def alreadyCompleted (completed : List String) : Bool :=
  (List.range 10).all (fun i => completed.contains ("agent_" ++ toString (i + 1)))

/-- What `resume_workflow` does after rebuilding: report "Already
completed" without re-entering the graph, or re-enter with the rebuilt
state. -/
inductive ResumeAction where
  | alreadyDone (completed : List String)
  | reenter (st : RebuiltState)
  deriving DecidableEq, Repr

/-- `resume_workflow` lines 327-366 (the pure part: checkpoint
partitioning and the already-completed short-circuit). -/
def resumeWorkflowAction (cps : List CpRec) : ResumeAction :=
  let rs := rebuildState cps
  if alreadyCompleted rs.completedNodes then .alreadyDone rs.completedNodes
  else .reenter rs

/-- The pending-agent selection of `stage_a_parallel` (lines 58-64):
agents 1-6 whose key is absent from the stage-A output map. -/
def stageAPending (stageAOutputs : List (String × Nat)) : List Nat :=
  ((List.range 6).map (fun i => i + 1)).filter
    (fun i => (mapGet stageAOutputs ("agent_" ++ toString i)).isNone)

/-- The stage-A output map after `stage_a_parallel` re-enters on resume
(lines 65-118), given the pre-populated map and the output each agent's
work would produce.  If nothing is pending the state is returned
unchanged; otherwise the results of the pending agents are keyed by
`f"agent_{i + 1}"` over `enumerate(results)` and the whole map is
replaced by `state.stage_a_outputs = outputs`. -/
def stageAParallelOutputs (stageAOutputs : List (String × Nat)) (produce : Nat → Nat) :
    List (String × Nat) :=
  let pending := stageAPending stageAOutputs
  if pending.isEmpty then stageAOutputs
  else
    (pending.map produce).enum.map (fun ir => ("agent_" ++ toString (ir.1 + 1), ir.2))

/-! ## Safety Rule Engine (`app/safety/rules.py`) -/

/-- `SafetyIssue` (rule id, message, severity, source node key). -/
structure SafetyIssue where
  ruleId : String
  message : String
  severity : String
  nodeKey : String
  deriving DecidableEq, Repr

/-- The lossy snapshot the rules read (`_build_safety_state` keys:
`patient.conditions`, top-level `problems`, `medications`, `orders`,
`labs["creatinine"]`, `plan.medications`).  Lab values are modelled as
exact rationals. -/
structure Snapshot where
  conditions : List String
  problems : List String
  medications : List String
  orders : List String
  creatinine : Option ℚ
  planMedications : List String

/-- A registered safety rule (`id`, `description`,
`applies(state) -> issues`). -/
structure SafetyRule where
  ruleId : String
  description : String
  applies : Snapshot → List SafetyIssue

/-- `VTEProphylaxisRule.applies` (lines 83-110). -/
def vteApplies (snap : Snapshot) : List SafetyIssue :=
  let allConditions := snap.conditions ++ snap.problems
  let surgicalRisk := ["surgery_planned", "surgery", "surgical"].any (fun r => allConditions.contains r)
  let medicalRisk := ["pneumonia", "immobility", "cancer", "heart_failure"].any (fun r => allConditions.contains r)
  let allMeds := snap.medications ++ snap.orders
  let hasAnticoagulation := allMeds.any (fun med =>
    strContains (pyLower med) "anticoagul" || strContains (pyLower med) "heparin" ||
      strContains (pyLower med) "warfarin")
  if (surgicalRisk || medicalRisk) && !hasAnticoagulation then
    [{ ruleId := "vte_prophylaxis",
       message := "VTE prophylaxis should be considered for " ++
         (if surgicalRisk then "surgical" else "medical") ++ " patient with risk factors",
       severity := "warning", nodeKey := "" }]
  else []

/-- `RenalDosingRule.applies` (lines 119-133): a truthy creatinine above
1.5 flags each medication matching one of the listed drug names. -/
def renalApplies (snap : Snapshot) : List SafetyIssue :=
  match snap.creatinine with
  | some cr =>
    if !(cr == 0) && 3 / 2 < cr then
      (snap.medications.filter (fun med =>
        ["metformin", "gabapentin", "atenolol"].any (fun d => strContains (pyLower med) d))).map
        (fun med =>
          { ruleId := "renal_dosing",
            message := "Consider renal dose adjustment for " ++ med ++ " (Cr: " ++ toString cr ++ ")",
            severity := "warning", nodeKey := "" })
    else []
  | none => []

/-- `NSAIDContraindicationRule.applies` (lines 142-156). -/
def nsaidApplies (snap : Snapshot) : List SafetyIssue :=
  let hasCkd := (snap.conditions.map pyLower).contains "ckd"
  let nsaidOrdered := snap.orders.any (fun o => strContains (pyLower o) "nsaid")
  if hasCkd && nsaidOrdered then
    [{ ruleId := "nsaid_ckd_contraindication", message := "NSAID order flagged in CKD",
       severity := "error", nodeKey := "" }]
  else []

/-- `DrugInteractionRule.applies` (lines 165-180). -/
def interactionApplies (snap : Snapshot) : List SafetyIssue :=
  let allMeds := snap.medications.map pyLower ++ snap.planMedications.map pyLower
  let hasWarfarin := allMeds.any (fun m => strContains m "warfarin")
  let hasAmiodarone := allMeds.any (fun m => strContains m "amiodarone")
  if hasWarfarin && hasAmiodarone then
    [{ ruleId := "warfarin_amiodarone_interaction",
       message := "Monitor INR closely (warfarin + amiodarone)",
       severity := "warning", nodeKey := "" }]
  else []

/-- The default registry contents, in registration order (lines 184-187). -/
def registryRules : List SafetyRule :=
  [⟨"vte_prophylaxis", "VTE prophylaxis assessment for high-risk patients", vteApplies⟩,
   ⟨"renal_dosing", "Renal dosing adjustment for medications", renalApplies⟩,
   ⟨"nsaid_ckd_contraindication", "NSAID contraindication in chronic kidney disease", nsaidApplies⟩,
   ⟨"warfarin_amiodarone_interaction", "Warfarin and amiodarone interaction", interactionApplies⟩]

/-- The per-issue tagging of `check_all_rules` (lines 55-57): set
`node_key` only when the rule left it empty. -/
def tagIssue (nk : String) (i : SafetyIssue) : SafetyIssue :=
  if i.nodeKey = "" then { i with nodeKey := nk } else i

/-- `SafetyRuleRegistry.check_all_rules` (lines 50-59): evaluate every
registered rule in order, tag its issues, and accumulate. -/
def checkAllRules (snap : Snapshot) (nodeKey : String) : List SafetyIssue :=
  registryRules.foldl (fun acc r => acc ++ (r.applies snap).map (tagIssue nodeKey)) []

/-- An already-compliant agent 7 output (the compliant fixture of
`test_output_validator.py`). -/
def compliantDemo : Dict :=
  [("problems", .plist [.pdict
    [("heading", .pstr "Hypertension (POA)"),
     ("plan", .plist [.pstr "[] Continue lisinopril."])]])]

/-- A malformed (non-list `problems`) but well-typed agent 7 output. -/
def malformedDemo : Dict :=
  [("problems", .plist [.pstr "not a dict", .pdict [("heading", .pnone)], .pdict []])]

/-- The empty safety snapshot. -/
def emptySnapshot : Snapshot := ⟨[], [], [], [], none, []⟩

/-! # Theorems -/

/-! ## Retry/Fallback Executor -/

/-- The primary loop under an always-raised retryable error: every
remaining attempt is consumed. -/
theorem retryLoop_retryable_err {α : Type} (e : AgentError) (he : retryableB e = true)
    (process : Nat → Except AgentError α) (h : ∀ n, process n = .error e) :
    ∀ m base, 1 ≤ m → retryLoop process m base = ⟨none, some e, m, base + m⟩ := by
  intro m
  induction m with
  | zero => intro base hm; omega
  | succ k ih =>
    intro base _
    rw [retryLoop, h (base + 1)]
    rcases Nat.eq_zero_or_pos k with hk | hk
    · subst hk
      simp [he]
    · have hkne : k ≠ 0 := Nat.pos_iff_ne_zero.mp hk
      dsimp only
      rw [if_pos (by simp [hkne, he])]
      rw [ih (base + 1) hk]
      have hb : base + 1 + k = base + (k + 1) := by omega
      simp [hb]

/-- The primary loop under an always-raised non-retryable error: it
breaks after the first invocation. -/
theorem retryLoop_nonretryable_err {α : Type} (e : AgentError) (he : retryableB e = false)
    (process : Nat → Except AgentError α) (h : ∀ n, process n = .error e) :
    ∀ m base, 1 ≤ m → retryLoop process m base = ⟨none, some e, 1, base + 1⟩ := by
  intro m
  cases m with
  | zero => intro base hm; omega
  | succ k =>
    intro base _
    rw [retryLoop, h (base + 1)]
    simp [he]

/-- C5: a stage whose work raises a Transient error on every attempt is
invoked exactly `maxAttempts = 4` times, after which the fallback is
invoked exactly once. -/
theorem retry_exhaustion {α : Type} (process : Nat → Except AgentError α)
    (fallback : Except AgentError (Option α))
    (h : ∀ n, process n = .error .transient) :
    (runWithRetry process fallback).processCalls = maxRetries ∧
    maxRetries = 4 ∧
    (runWithRetry process fallback).fallbackCalls = 1 := by
  have hl := retryLoop_retryable_err .transient rfl process h maxRetries 0 (by decide)
  refine ⟨?_, rfl, ?_⟩ <;> simp [runWithRetry, hl]

/-- Witness for C5: a concrete always-Transient stage makes four primary
invocations and one fallback invocation. -/
theorem retry_exhaustion_witness :
    (runWithRetry (fun _ => (.error .transient : Except AgentError Nat)) (.ok none)).processCalls = maxRetries ∧
    maxRetries = 4 ∧
    (runWithRetry (fun _ => (.error .transient : Except AgentError Nat)) (.ok none)).fallbackCalls = 1 :=
  retry_exhaustion (fun _ => .error .transient) (.ok none) (fun _ => rfl)

/-- C6: a stage raising a Permanent error is invoked exactly once before
the fallback is invoked (once); errors other than Transient/Permanent are
classified retryable — like Transient and unlike Permanent — and an
always-other-error stage is retried while attempts remain (all 4). -/
theorem permanent_short_circuit {α : Type} (pf pf2 : Nat → Except AgentError α)
    (fb fb2 : Except AgentError (Option α))
    (h1 : ∀ n, pf n = .error .permanent) (h2 : ∀ n, pf2 n = .error .other) :
    (runWithRetry pf fb).processCalls = 1 ∧
    (runWithRetry pf fb).fallbackCalls = 1 ∧
    retryableB .other = true ∧ retryableB .transient = true ∧ retryableB .permanent = false ∧
    (runWithRetry pf2 fb2).processCalls = maxRetries := by
  have hl1 := retryLoop_nonretryable_err .permanent rfl pf h1 maxRetries 0 (by decide)
  have hl2 := retryLoop_retryable_err .other rfl pf2 h2 maxRetries 0 (by decide)
  refine ⟨?_, ?_, rfl, rfl, rfl, ?_⟩ <;> simp [runWithRetry, hl1, hl2]

/-- Witness for C6 at concrete always-Permanent and always-other stages. -/
theorem permanent_short_circuit_witness :
    (runWithRetry (fun _ => (.error .permanent : Except AgentError Nat)) (.ok none)).processCalls = 1 ∧
    (runWithRetry (fun _ => (.error .other : Except AgentError Nat)) (.ok none)).processCalls = maxRetries :=
  ⟨(permanent_short_circuit (fun _ => .error .permanent) (fun _ => .error .other)
      (.ok none) (.ok none) (fun _ => rfl) (fun _ => rfl)).1,
   (permanent_short_circuit (fun _ => .error .permanent) (fun _ => .error .other)
      (.ok none) (.ok none) (fun _ => rfl) (fun _ => rfl)).2.2.2.2.2⟩

/-! ## Run status state machine -/

/-- C2: once a run has been cancelled out-of-band (which `cancel_workflow`
only allows before any terminal status is reached), the terminal-status
write at the pipeline's natural termination observes `cancelled` on its
re-read and skips the overwrite, for either natural outcome — the final
persisted status is `cancelled`, never `completed` or `failed`. -/
theorem cancellation_precedence (s s2 : RunStatus) (hasErrors : Bool)
    (h : cancelWorkflow s = .ok s2) :
    finishWorkflow s2 hasErrors = .cancelled ∧
    finishWorkflow s2 hasErrors ≠ .completed ∧
    finishWorkflow s2 hasErrors ≠ .failed := by
  have hs2 : s2 = .cancelled := by
    unfold cancelWorkflow at h
    by_cases ht : s.isTerminal = true
    · simp [ht] at h
    · simp [Bool.not_eq_true] at ht
      simp [ht] at h
      exact h.symm
  subst hs2
  refine ⟨rfl, ?_, ?_⟩ <;> simp [finishWorkflow]

/-- Witness for C2: cancelling a `running` run, then finishing naturally
with an error-free final state, leaves the persisted status `cancelled`. -/
theorem cancellation_precedence_witness :
    finishWorkflow .cancelled false = .cancelled :=
  (cancellation_precedence .running .cancelled false rfl).1

/-- Counterexample for C4: the status machine claims terminal states have
no outgoing transition, but `resume_workflow` accepts a `failed` run and
persists `running` again — a transition out of the terminal `failed`. -/
theorem resume_exits_terminal_failed :
    RunStatus.isTerminal .failed = true ∧
    resumeWorkflowStatus .failed = .ok .running ∧
    RunStatus.running ≠ RunStatus.failed :=
  ⟨rfl, rfl, by decide⟩

/-- C4 (amended): `completed` and `cancelled` admit no outgoing
transition — both `cancel_workflow` and `resume_workflow` reject them —
cancel only moves a non-terminal run to `cancelled`, and resume only
moves a `failed`/`running`/`pending` run to `running`; in particular
`failed` is not absorbing. -/
theorem status_machine_amended :
    (∀ s : RunStatus, s = .completed ∨ s = .cancelled →
      exceptOk (cancelWorkflow s) = false ∧ exceptOk (resumeWorkflowStatus s) = false) ∧
    resumeWorkflowStatus .failed = .ok .running ∧
    (∀ s s2 : RunStatus, cancelWorkflow s = .ok s2 →
      s.isTerminal = false ∧ s2 = .cancelled) ∧
    (∀ s s2 : RunStatus, resumeWorkflowStatus s = .ok s2 →
      s2 = .running ∧ (s = .failed ∨ s = .running ∨ s = .pending)) := by
  refine ⟨?_, rfl, ?_, ?_⟩
  · rintro s (rfl | rfl) <;> exact ⟨rfl, rfl⟩
  · intro s s2 h
    cases s <;> first
      | exact ⟨rfl, by injection h with h2; exact h2.symm⟩
      | simp [cancelWorkflow, RunStatus.isTerminal] at h
  · intro s s2 h
    cases s <;>
      simp_all [resumeWorkflowStatus]

/-- Witness for C4 (amended): at concrete statuses, `completed` and
`cancelled` are rejected by both operations, while a `failed` run resumes
to `running`. -/
theorem status_machine_amended_witness :
    exceptOk (cancelWorkflow .completed) = false ∧
    exceptOk (resumeWorkflowStatus .cancelled) = false ∧
    resumeWorkflowStatus .failed = .ok .running :=
  ⟨(status_machine_amended.1 .completed (Or.inl rfl)).1,
   (status_machine_amended.1 .cancelled (Or.inr rfl)).2,
   status_machine_amended.2.1⟩

/-! ## Resume and stage-A re-entry -/

/-- C1 (code evaluated at the failing input): for a run whose checkpoints
record agents 1-3 completed, `resume_workflow` rebuilds the state with
`stage_a_outputs` pre-populated and re-enters the graph (the completed
set is not full, so no "already done" short-circuit), and
`stage_a_parallel` correctly selects only the pending agents 4-6 — but it
keys their results as `agent_1..agent_3` via `enumerate(results)` and
replaces the whole stage-A output map, so the recovered outputs of the
completed agents (101, 102, 103) are gone from the resulting state and
agent 4's output (204) sits under the key `agent_1`, while `agent_4`
maps to nothing. -/
theorem resume_reentry_drops_recovered_outputs :
    rebuildState
        [⟨"agent_1", "completed", 101⟩, ⟨"agent_2", "completed", 102⟩,
         ⟨"agent_3", "completed", 103⟩] =
      ⟨[("agent_1", 101), ("agent_2", 102), ("agent_3", 103)], [], [],
       ["agent_1", "agent_2", "agent_3"]⟩ ∧
    resumeWorkflowAction
        [⟨"agent_1", "completed", 101⟩, ⟨"agent_2", "completed", 102⟩,
         ⟨"agent_3", "completed", 103⟩] =
      .reenter
        ⟨[("agent_1", 101), ("agent_2", 102), ("agent_3", 103)], [], [],
         ["agent_1", "agent_2", "agent_3"]⟩ ∧
    stageAPending [("agent_1", 101), ("agent_2", 102), ("agent_3", 103)] = [4, 5, 6] ∧
    stageAParallelOutputs [("agent_1", 101), ("agent_2", 102), ("agent_3", 103)]
        (fun i => 200 + i) =
      [("agent_1", 204), ("agent_2", 205), ("agent_3", 206)] ∧
    mapGet (stageAParallelOutputs [("agent_1", 101), ("agent_2", 102), ("agent_3", 103)]
        (fun i => 200 + i)) "agent_1" ≠ some 101 ∧
    mapGet (stageAParallelOutputs [("agent_1", 101), ("agent_2", 102), ("agent_3", 103)]
        (fun i => 200 + i)) "agent_4" = none := by
  decide

/-! ## Checkpoint Store -/

/-- C3: in a well-formed store with no pre-existing row for the second
state's hash, saving the same state twice for the same `(run, stage)`
returns the same id and leaves the store untouched, while saving a state
whose canonical serialization (hence content hash) differs returns a
different id and inserts exactly one new row. -/
theorem checkpoint_idempotent (st : CpStore) (run node : String) (s s2 : PyVal)
    (hwf : st.wfb = true)
    (hno : noRowB st run node (stateHash s2) = true)
    (hne : stateHash s2 ≠ stateHash s) :
    saveCheckpoint (saveCheckpoint st run node s).2 run node s = saveCheckpoint st run node s ∧
    (saveCheckpoint (saveCheckpoint st run node s).2 run node s2).1 ≠
      (saveCheckpoint st run node s).1 ∧
    (saveCheckpoint (saveCheckpoint st run node s).2 run node s2).2.rows.length =
      (saveCheckpoint st run node s).2.rows.length + 1 := by
  have hfind2 : st.rows.find?
      (fun r => r.runId == run && r.nodeKey == node && r.stateHash == stateHash s2) = none := by
    rw [List.find?_eq_none]
    intro r hr
    have h1 := (List.all_eq_true.mp hno) r hr
    simp only [Bool.not_eq_true'] at h1
    simp [h1]
  have hwf2 : ∀ r ∈ st.rows, r.id < st.nextId := by
    intro r hr
    have h1 := (List.all_eq_true.mp hwf) r hr
    simpa using h1
  have hns2 : (stateHash s == stateHash s2) = false :=
    beq_eq_false_iff_ne.mpr (fun h => hne h.symm)
  cases hcase : st.rows.find?
      (fun r => r.runId == run && r.nodeKey == node && r.stateHash == stateHash s) with
  | some r =>
    have hid : r.id < st.nextId := hwf2 r (List.mem_of_find?_eq_some hcase)
    have e1 : saveCheckpoint st run node s = (r.id, st) := by
      simp only [saveCheckpoint, hcase]
    rw [e1]
    refine ⟨?_, ?_, ?_⟩
    · simp only [saveCheckpoint, hcase]
    · simp only [saveCheckpoint, hfind2]
      simp
      omega
    · simp only [saveCheckpoint, hfind2]
      simp
  | none =>
    have e1 : saveCheckpoint st run node s =
        (st.nextId,
         ⟨st.rows ++ [⟨st.nextId, run, node, stateHash s, s⟩], st.nextId + 1⟩) := by
      simp only [saveCheckpoint, hcase]
    rw [e1]
    have e2 : (st.rows ++ [(⟨st.nextId, run, node, stateHash s, s⟩ : CpRow)]).find?
        (fun r => r.runId == run && r.nodeKey == node && r.stateHash == stateHash s) =
        some ⟨st.nextId, run, node, stateHash s, s⟩ := by
      rw [List.find?_append, hcase]
      simp
    have e3 : (st.rows ++ [(⟨st.nextId, run, node, stateHash s, s⟩ : CpRow)]).find?
        (fun r => r.runId == run && r.nodeKey == node && r.stateHash == stateHash s2) = none := by
      rw [List.find?_append, hfind2]
      simp [hns2]
    refine ⟨?_, ?_, ?_⟩
    · simp only [saveCheckpoint, e2]
    · simp only [saveCheckpoint, e3]
      simp
    · simp only [saveCheckpoint, e3]
      simp

/-- Witness for C3: on an initially empty store, re-saving the same state
returns the same id without a new row, and saving a different state
returns a different id. -/
theorem checkpoint_idempotent_witness :
    saveCheckpoint (saveCheckpoint ⟨[], 0⟩ "run_1" "agent_1" (.pstr "a")).2
        "run_1" "agent_1" (.pstr "a") =
      saveCheckpoint ⟨[], 0⟩ "run_1" "agent_1" (.pstr "a") ∧
    (saveCheckpoint (saveCheckpoint ⟨[], 0⟩ "run_1" "agent_1" (.pstr "a")).2
        "run_1" "agent_1" (.pstr "b")).1 ≠
      (saveCheckpoint ⟨[], 0⟩ "run_1" "agent_1" (.pstr "a")).1 :=
  ⟨(checkpoint_idempotent ⟨[], 0⟩ "run_1" "agent_1" (.pstr "a") (.pstr "b")
      rfl rfl (by decide)).1,
   (checkpoint_idempotent ⟨[], 0⟩ "run_1" "agent_1" (.pstr "a") (.pstr "b")
      rfl rfl (by decide)).2.1⟩

/-! ## Safety Rule Engine -/

/-- Issues produced by the VTE rule carry an empty source key. -/
theorem vte_nodeKey_empty (snap : Snapshot) :
    ∀ i ∈ vteApplies snap, i.nodeKey = "" := by
  intro i hi
  unfold vteApplies at hi
  dsimp only at hi
  split at hi
  · rcases List.mem_singleton.mp hi with rfl
    rfl
  · cases hi

/-- Issues produced by the renal-dosing rule carry an empty source key. -/
theorem renal_nodeKey_empty (snap : Snapshot) :
    ∀ i ∈ renalApplies snap, i.nodeKey = "" := by
  intro i hi
  unfold renalApplies at hi
  split at hi
  · split at hi
    · rcases List.mem_map.mp hi with ⟨med, _, rfl⟩
      rfl
    · cases hi
  · cases hi

/-- Issues produced by the NSAID rule carry an empty source key. -/
theorem nsaid_nodeKey_empty (snap : Snapshot) :
    ∀ i ∈ nsaidApplies snap, i.nodeKey = "" := by
  intro i hi
  unfold nsaidApplies at hi
  dsimp only at hi
  split at hi
  · rcases List.mem_singleton.mp hi with rfl
    rfl
  · cases hi

/-- Issues produced by the drug-interaction rule carry an empty source
key. -/
theorem interaction_nodeKey_empty (snap : Snapshot) :
    ∀ i ∈ interactionApplies snap, i.nodeKey = "" := by
  intro i hi
  unfold interactionApplies at hi
  dsimp only at hi
  split at hi
  · rcases List.mem_singleton.mp hi with rfl
    rfl
  · cases hi

/-- C9: `check_all_rules` evaluates every registered rule and returns the
concatenation of their issue lists in registration order, every returned
issue is tagged with the given source stage, and when no rule finds an
issue the result is the empty list (the engine itself is a pure function —
it performs no persistence). -/
theorem check_all_rules_spec (snap : Snapshot) (nk : String) :
    checkAllRules snap nk =
      (vteApplies snap).map (tagIssue nk) ++ (renalApplies snap).map (tagIssue nk) ++
        (nsaidApplies snap).map (tagIssue nk) ++ (interactionApplies snap).map (tagIssue nk) ∧
    (∀ i ∈ checkAllRules snap nk, i.nodeKey = nk) ∧
    ((∀ r ∈ registryRules, r.applies snap = []) → checkAllRules snap nk = []) := by
  have hagg : checkAllRules snap nk =
      (vteApplies snap).map (tagIssue nk) ++ (renalApplies snap).map (tagIssue nk) ++
        (nsaidApplies snap).map (tagIssue nk) ++ (interactionApplies snap).map (tagIssue nk) := by
    simp [checkAllRules, registryRules]
  refine ⟨hagg, ?_, ?_⟩
  · intro i hi
    rw [hagg] at hi
    have htag : ∀ j : SafetyIssue, j.nodeKey = "" → (tagIssue nk j).nodeKey = nk := by
      intro j hj
      simp [tagIssue, hj]
    rcases List.mem_append.mp hi with hi3 | hi4
    · rcases List.mem_append.mp hi3 with hi2 | hi2
      · rcases List.mem_append.mp hi2 with hi1 | hi1
        · rcases List.mem_map.mp hi1 with ⟨j, hj, rfl⟩
          exact htag j (vte_nodeKey_empty snap j hj)
        · rcases List.mem_map.mp hi1 with ⟨j, hj, rfl⟩
          exact htag j (renal_nodeKey_empty snap j hj)
      · rcases List.mem_map.mp hi2 with ⟨j, hj, rfl⟩
        exact htag j (nsaid_nodeKey_empty snap j hj)
    · rcases List.mem_map.mp hi4 with ⟨j, hj, rfl⟩
      exact htag j (interaction_nodeKey_empty snap j hj)
  · intro hempty
    have h1 : vteApplies snap = [] :=
      hempty ⟨"vte_prophylaxis", "VTE prophylaxis assessment for high-risk patients", vteApplies⟩
        (by simp [registryRules])
    have h2 : renalApplies snap = [] :=
      hempty ⟨"renal_dosing", "Renal dosing adjustment for medications", renalApplies⟩
        (by simp [registryRules])
    have h3 : nsaidApplies snap = [] :=
      hempty ⟨"nsaid_ckd_contraindication", "NSAID contraindication in chronic kidney disease", nsaidApplies⟩
        (by simp [registryRules])
    have h4 : interactionApplies snap = [] :=
      hempty ⟨"warfarin_amiodarone_interaction", "Warfarin and amiodarone interaction", interactionApplies⟩
        (by simp [registryRules])
    rw [hagg, h1, h2, h3, h4]
    rfl

/-- Witness for C9 at the empty snapshot and source stage `agent_7`: no
rule fires and the engine returns the empty list. -/
theorem check_all_rules_witness :
    checkAllRules emptySnapshot "agent_7" = [] :=
  (check_all_rules_spec emptySnapshot "agent_7").2.2
    (by
      intro r hr
      simp only [registryRules, List.mem_cons, List.not_mem_nil, or_false] at hr
      rcases hr with rfl | rfl | rfl | rfl <;> rfl)

/-! ## Output Normalizer -/

/-- Writing back the value a key already holds leaves the dict unchanged
(the in-place mutation view of the Python code). -/
theorem dictSet_getOpt_self (d : Dict) (k : String) (v : PyVal)
    (h : dictGetOpt d k = some v) : dictSet d k v = d := by
  induction d with
  | nil => simp [dictGetOpt] at h
  | cons kv rest ih =>
    obtain ⟨k1, v1⟩ := kv
    by_cases hk : k1 = k
    · simp [dictGetOpt, hk] at h
      simp [dictSet, hk, h]
    · simp [dictGetOpt, hk] at h
      simp [dictSet, hk, ih h]

/-- A bullet-compliant line is left unchanged by the agent 4 repair. -/
theorem fixPELine_compliant (ln : String) (h : lineCompliant ln = true) :
    fixPELine ln = (ln, false) := by
  unfold fixPELine
  by_cases h1 : strStartsWith (pyStrip ln) "#" = true
  · rw [if_pos h1]
  · rw [if_neg h1]
    have hcond : (!(pyStrip ln == "") && !(strStartsWith (pyLstripWs ln) "- ") &&
        !(strStartsWith (pyLstripWs ln) "* ")) = false := by
      unfold lineCompliant at h
      rw [Bool.or_eq_true, Bool.or_eq_true, Bool.or_eq_true] at h
      rcases h with ((h | h) | h) | h
      · exact absurd h h1
      · simp [h]
      · simp [h]
      · simp [h]
    simp [hcond]

/-- Bullet-compliant Physical Exam lines pass the agent 4 loop unchanged. -/
theorem fixPELines_compliant (lines : List String) (h : lines.all lineCompliant = true) :
    fixPELines lines = (lines, false) := by
  induction lines with
  | nil => rfl
  | cons ln rest ih =>
    rw [List.all_cons, Bool.and_eq_true] at h
    obtain ⟨h1, h2⟩ := h
    simp [fixPELines, fixPELine_compliant ln h1, ih h2]

/-- A compliant agent 4 output passes `validate4` unchanged with no
issues. -/
theorem validate4_compliant (o : Dict) (h : compliant4 o = true) :
    validate4 o = .ok (o, [], false) := by
  unfold compliant4 at h
  unfold validate4
  cases hmd : dictGet o "content_md" (.pstr "") with
  | pstr s =>
    rw [hmd] at h
    dsimp only at h
    by_cases hc : strContains s "Physical Exam" = true
    · rw [hc] at h
      simp only [Bool.not_true, Bool.false_or] at h
      simp [pyInOp, hc, fixPELines_compliant _ h, Bind.bind, Except.bind, pure, Except.pure]
    · have hc2 : strContains s "Physical Exam" = false := by
        simpa using hc
      simp [pyInOp, hc2, Bind.bind, Except.bind, pure, Except.pure]
  | plist xs =>
    rw [hmd] at h
    dsimp only at h
    rw [Bool.not_eq_true'] at h
    simp [pyInOp, h, Bind.bind, Except.bind, pure, Except.pure]
  | pdict kvs =>
    rw [hmd] at h
    dsimp only at h
    rw [Bool.not_eq_true'] at h
    simp [pyInOp, h, Bind.bind, Except.bind, pure, Except.pure]
  | pint n => rw [hmd] at h; dsimp only at h; cases h
  | pbool b => rw [hmd] at h; dsimp only at h; cases h
  | pnone => rw [hmd] at h; dsimp only at h; cases h

/-- A plan whose string items carry the bracket marker and period makes
no change in the plan fold. -/
theorem planFold_flag (items : List PyVal) (h : items.all planItemCompliant = true) :
    ∀ l : List PyVal, (items.foldl fixPlanItem (l, false)).2 = false := by
  induction items with
  | nil => intro l; rfl
  | cons item rest ih =>
    rw [List.all_cons, Bool.and_eq_true] at h
    obtain ⟨h1, h2⟩ := h
    intro l
    cases item with
    | pstr s =>
      unfold planItemCompliant at h1
      rw [Bool.and_eq_true] at h1
      obtain ⟨hA, hB⟩ := h1
      simp only [List.foldl_cons]
      have hstep : fixPlanItem (l, false) (.pstr s) = (l ++ [.pstr (pyStrip s)], false) := by
        simp [fixPlanItem, hA, hB]
      rw [hstep]
      exact ih h2 _
    | pint n => simp only [List.foldl_cons, fixPlanItem]; exact ih h2 l
    | pbool b => simp only [List.foldl_cons, fixPlanItem]; exact ih h2 l
    | pnone => simp only [List.foldl_cons, fixPlanItem]; exact ih h2 l
    | plist xs => simp only [List.foldl_cons, fixPlanItem]; exact ih h2 l
    | pdict kvs => simp only [List.foldl_cons, fixPlanItem]; exact ih h2 l

/-- A compliant plan block makes no change. -/
theorem planStep_compliant (p : Dict) (hp : planCompliant p = true) :
    planStep p = (p, [], false) := by
  unfold planCompliant at hp
  unfold planStep
  cases hplan : dictGetOpt p "plan" with
  | none => rfl
  | some v =>
    cases v with
    | plist items =>
      rw [hplan] at hp
      dsimp only at hp
      simp [planFold_flag items hp []]
    | pstr s => rfl
    | pint n => rfl
    | pbool b => rfl
    | pnone => rfl
    | pdict kvs => rfl

/-- A compliant problem dict passes `processOne` unchanged, producing no
issues and extending the seen-heading set as `seenAfter` describes. -/
theorem processOne_compliant (seen : List String) (p : Dict)
    (hh : headingCompliant seen p = true) (hp : planCompliant p = true) :
    processOne seen p = .ok (p, [], false, seenAfter seen p) := by
  unfold headingCompliant at hh
  by_cases ht : truthy (dictGet p "heading" (.pstr "")) = true
  · rw [if_pos ht] at hh
    cases hmd : dictGet p "heading" (.pstr "") with
    | pstr s =>
      rw [hmd] at hh ht
      dsimp only at hh
      rw [Bool.and_eq_true] at hh
      obtain ⟨hPT, hSeen⟩ := hh
      rw [Bool.and_eq_true] at hPT
      obtain ⟨hPOA, hTC⟩ := hPT
      have hTCeq : pyTitleCase s = s := by simpa using hTC
      have hSeen2 : ¬ (pyLower s ∈ seen) := by simpa using hSeen
      simp [processOne, seenAfter, hmd, ht, poaStep, titleStep, dedupStep, hPOA, hTCeq, hSeen2,
        planStep_compliant p hp, Bind.bind, Except.bind, pure, Except.pure]
    | pint n => rw [hmd] at hh; dsimp only at hh; cases hh
    | pbool b => rw [hmd] at hh; dsimp only at hh; cases hh
    | pnone => rw [hmd] at hh; dsimp only at hh; cases hh
    | plist xs => rw [hmd] at hh; dsimp only at hh; cases hh
    | pdict kvs => rw [hmd] at hh; dsimp only at hh; cases hh
  · have ht2 : truthy (dictGet p "heading" (.pstr "")) = false := by simpa using ht
    have htps : truthy (.pstr "") = false := rfl
    simp [processOne, seenAfter, ht2, htps, planStep_compliant p hp,
      Bind.bind, Except.bind, pure, Except.pure]

/-- A compliant problems list passes the agent 7 loop unchanged. -/
theorem processProblems_compliant (ps : List PyVal) :
    ∀ seen : List String, compliantProblems seen ps = true →
      processProblems seen ps = .ok (ps, [], false) := by
  induction ps with
  | nil => intro seen _; rfl
  | cons p rest ih =>
    intro seen h
    cases p with
    | pdict kvs =>
      unfold compliantProblems at h
      rw [Bool.and_eq_true] at h
      obtain ⟨hhp, hrest⟩ := h
      rw [Bool.and_eq_true] at hhp
      obtain ⟨hh, hp⟩ := hhp
      simp [processProblems, processOne_compliant seen kvs hh hp, ih _ hrest,
        Bind.bind, Except.bind, pure, Except.pure]
    | pstr s =>
      simp [processProblems, ih _ h, Bind.bind, Except.bind, pure, Except.pure]
    | pint n =>
      simp [processProblems, ih _ h, Bind.bind, Except.bind, pure, Except.pure]
    | pbool b =>
      simp [processProblems, ih _ h, Bind.bind, Except.bind, pure, Except.pure]
    | pnone =>
      simp [processProblems, ih _ h, Bind.bind, Except.bind, pure, Except.pure]
    | plist xs =>
      simp [processProblems, ih _ h, Bind.bind, Except.bind, pure, Except.pure]

/-- A compliant agent 7 output passes `validate7` unchanged with no
issues. -/
theorem validate7_compliant (o : Dict) (h : compliant7 o = true) :
    validate7 o = .ok (o, [], false) := by
  unfold compliant7 at h
  unfold validate7
  cases hpro : dictGetOpt o "problems" with
  | none => rfl
  | some v =>
    cases v with
    | plist ps =>
      rw [hpro] at h
      dsimp only at h
      simp [processProblems_compliant ps [] h, dictSet_getOpt_self o "problems" _ hpro,
        Bind.bind, Except.bind, pure, Except.pure]
    | pstr s => rfl
    | pint n => rfl
    | pbool b => rfl
    | pnone => rfl
    | pdict kvs => rfl

/-- Already-compliant input passes the Normalizer unchanged: no issues,
`repaired = false`, output byte-identical to the input. -/
theorem validate_compliant (a : Int) (o : Dict) (h : compliant a o = true) :
    validate_agent_output a o = .ok (o, [], false) := by
  unfold compliant at h
  unfold validate_agent_output
  by_cases h4 : a = 4
  · rw [if_pos h4] at h ⊢
    exact validate4_compliant o h
  · rw [if_neg h4] at h ⊢
    by_cases h7 : a = 7
    · rw [if_pos h7] at h ⊢
      exact validate7_compliant o h
    · rw [if_neg h7]
      rfl

/-- C8: applying the Normalizer to already-compliant input returns
`repaired = false` and an empty issues list with byte-identical output,
and applying it a second time does so again — the input round-trips
unchanged through both applications. -/
theorem normalizer_idempotent (a : Int) (o o1 : Dict) (iss1 : List String) (rep1 : Bool)
    (hc : compliant a o = true)
    (hv : validate_agent_output a o = .ok (o1, iss1, rep1)) :
    rep1 = false ∧ iss1 = [] ∧ o1 = o ∧ validate_agent_output a o1 = .ok (o1, [], false) := by
  have h1 := validate_compliant a o hc
  rw [h1] at hv
  have h2 : o = o1 ∧ [] = iss1 ∧ false = rep1 := by
    have h3 := hv
    simp only [Except.ok.injEq, Prod.mk.injEq] at h3
    exact ⟨h3.1, h3.2.1, h3.2.2⟩
  obtain ⟨ho, hiss, hrep⟩ := h2
  subst ho; subst hiss; subst hrep
  exact ⟨rfl, rfl, rfl, h1⟩

/-- Witness for C8 at the compliant fixture of the repo's own validator
test: compliance holds and the Normalizer returns it unchanged. -/
theorem normalizer_idempotent_witness :
    compliant 7 compliantDemo = true ∧
    validate_agent_output 7 compliantDemo = .ok (compliantDemo, [], false) :=
  ⟨by rfl, (normalizer_idempotent 7 compliantDemo compliantDemo [] false (by rfl) (by rfl)).2.2.2⟩

/-- Counterexample for C7: the Normalizer does raise on malformed input —
an agent 7 problem whose `heading` is the (truthy, non-string) number `1`
hits `heading.upper()` and raises `AttributeError`, so `normalize` does
not return for every raw output value. -/
theorem validator_raises_on_int_heading :
    exceptOk (validate_agent_output 7
      [("problems", .plist [.pdict [("heading", .pint 1)]])]) = false := by rfl

/-- A well-typed problem dict cannot make `processOne` raise. -/
theorem processOne_total (seen : List String) (kvs : Dict)
    (h : headingWellTyped (.pdict kvs) = true) :
    exceptOk (processOne seen kvs) = true := by
  unfold headingWellTyped at h
  dsimp only at h
  by_cases ht : truthy (dictGet kvs "heading" (.pstr "")) = true
  · rw [ht] at h
    simp only [Bool.not_true, Bool.false_or] at h
    cases hmd : dictGet kvs "heading" (.pstr "") with
    | pstr s =>
      rw [hmd] at ht
      simp [processOne, hmd, ht, Bind.bind, Except.bind, pure, Except.pure, exceptOk]
    | pint n => rw [hmd] at h; dsimp only at h; cases h
    | pbool b => rw [hmd] at h; dsimp only at h; cases h
    | pnone => rw [hmd] at h; dsimp only at h; cases h
    | plist xs => rw [hmd] at h; dsimp only at h; cases h
    | pdict kvs2 => rw [hmd] at h; dsimp only at h; cases h
  · have ht2 : truthy (dictGet kvs "heading" (.pstr "")) = false := by simpa using ht
    have htps : truthy (.pstr "") = false := rfl
    simp [processOne, ht2, htps, Bind.bind, Except.bind, pure, Except.pure, exceptOk]

/-- A problems list of well-typed entries cannot make the agent 7 loop
raise. -/
theorem processProblems_total (ps : List PyVal) :
    ∀ seen : List String, ps.all headingWellTyped = true →
      exceptOk (processProblems seen ps) = true := by
  induction ps with
  | nil => intro seen _; rfl
  | cons p rest ih =>
    intro seen h
    rw [List.all_cons, Bool.and_eq_true] at h
    obtain ⟨h1, h2⟩ := h
    cases p with
    | pdict kvs =>
      have hone := processOne_total seen kvs h1
      cases he : processOne seen kvs with
      | error e => rw [he] at hone; simp [exceptOk] at hone
      | ok r =>
        have hrest := ih r.2.2.2 h2
        cases he2 : processProblems r.2.2.2 rest with
        | error e => rw [he2] at hrest; simp [exceptOk] at hrest
        | ok rr =>
          simp [processProblems, he, he2, Bind.bind, Except.bind, pure, Except.pure, exceptOk]
    | pstr s =>
      have hrest := ih seen h2
      cases he2 : processProblems seen rest with
      | error e => rw [he2] at hrest; simp [exceptOk] at hrest
      | ok rr =>
        simp [processProblems, he2, Bind.bind, Except.bind, pure, Except.pure, exceptOk]
    | pint n =>
      have hrest := ih seen h2
      cases he2 : processProblems seen rest with
      | error e => rw [he2] at hrest; simp [exceptOk] at hrest
      | ok rr =>
        simp [processProblems, he2, Bind.bind, Except.bind, pure, Except.pure, exceptOk]
    | pbool b =>
      have hrest := ih seen h2
      cases he2 : processProblems seen rest with
      | error e => rw [he2] at hrest; simp [exceptOk] at hrest
      | ok rr =>
        simp [processProblems, he2, Bind.bind, Except.bind, pure, Except.pure, exceptOk]
    | pnone =>
      have hrest := ih seen h2
      cases he2 : processProblems seen rest with
      | error e => rw [he2] at hrest; simp [exceptOk] at hrest
      | ok rr =>
        simp [processProblems, he2, Bind.bind, Except.bind, pure, Except.pure, exceptOk]
    | plist xs =>
      have hrest := ih seen h2
      cases he2 : processProblems seen rest with
      | error e => rw [he2] at hrest; simp [exceptOk] at hrest
      | ok rr =>
        simp [processProblems, he2, Bind.bind, Except.bind, pure, Except.pure, exceptOk]

/-- A string `content_md` cannot make the agent 4 block raise. -/
theorem validate4_total (o : Dict) (s : String)
    (hmd : dictGet o "content_md" (.pstr "") = .pstr s) :
    exceptOk (validate4 o) = true := by
  simp only [validate4, hmd]
  by_cases hc : strContains s "Physical Exam" = true
  · simp only [pyInOp, hc, Bind.bind, Except.bind, pure, Except.pure, if_true]
    split <;> rfl
  · have hc2 : strContains s "Physical Exam" = false := by simpa using hc
    simp [pyInOp, hc2, Bind.bind, Except.bind, pure, Except.pure, exceptOk]

/-- C7 (amended): the Normalizer returns without raising for every
output whose inspected fields are well-typed (`content_md` a string, all
problem headings strings or falsy); a truthy non-string heading, by
contrast, raises — see the counterexample. -/
theorem validator_total_on_welltyped (a : Int) (o : Dict) (h : wellTyped o = true) :
    exceptOk (validate_agent_output a o) = true := by
  unfold wellTyped at h
  rw [Bool.and_eq_true] at h
  obtain ⟨hmd, hpr⟩ := h
  unfold validate_agent_output
  by_cases h4 : a = 4
  · rw [if_pos h4]
    cases hm : dictGet o "content_md" (.pstr "") with
    | pstr s => exact validate4_total o s hm
    | pint n => rw [hm] at hmd; dsimp only at hmd; cases hmd
    | pbool b => rw [hm] at hmd; dsimp only at hmd; cases hmd
    | pnone => rw [hm] at hmd; dsimp only at hmd; cases hmd
    | plist xs => rw [hm] at hmd; dsimp only at hmd; cases hmd
    | pdict kvs => rw [hm] at hmd; dsimp only at hmd; cases hmd
  · rw [if_neg h4]
    by_cases h7 : a = 7
    · rw [if_pos h7]
      unfold validate7
      cases hpro : dictGetOpt o "problems" with
      | none => rfl
      | some v =>
        cases v with
        | plist ps =>
          rw [hpro] at hpr
          dsimp only at hpr
          have hall := processProblems_total ps [] hpr
          cases he : processProblems [] ps with
          | error e => rw [he] at hall; simp [exceptOk] at hall
          | ok r => simp [he, Bind.bind, Except.bind, pure, Except.pure, exceptOk]
        | pstr s => rfl
        | pint n => rfl
        | pbool b => rfl
        | pnone => rfl
        | pdict kvs => rfl
    · rw [if_neg h7]
      rfl

/-- Witness for C7 (amended) at a malformed but well-typed output
(non-dict problem entries, a `None` heading, a missing heading): the
Normalizer returns without raising. -/
theorem validator_total_witness :
    wellTyped malformedDemo = true ∧
    exceptOk (validate_agent_output 7 malformedDemo) = true :=
  ⟨by rfl, validator_total_on_welltyped 7 malformedDemo (by rfl)⟩

/-- C10: for any agent 7 problem heading that already carries the POA tag
but differs from its per-word capitalized form, the Normalizer rewrites
the heading to that form (each purely alphabetic word capitalized with
remaining letters lowercased), records a title-case issue quoting the old
heading, and sets `repaired = true` — a rewrite beyond the POA, dedup and
plan rules. -/
theorem title_case_rewrite (s : String)
    (h0 : (s == "") = false)
    (h1 : strContains (pyUpper s) "POA" = true)
    (h2 : (pyTitleCase s == s) = false) :
    validate_agent_output 7 [("problems", .plist [.pdict [("heading", .pstr s)]])] =
      .ok ([("problems", .plist [.pdict [("heading", .pstr (pyTitleCase s))]])],
           ["Title-cased problem heading \x27" ++ s ++ "\x27"], true) := by
  simp [validate_agent_output, validate7, processProblems, processOne, poaStep, titleStep,
    dedupStep, planStep, dictGetOpt, dictGet, dictSet, setAdd, truthy, h0, h1, h2,
    Bind.bind, Except.bind, pure, Except.pure]

/-- Witness for C10: the all-caps acronym heading `"CKD (POA)"` becomes
`"Ckd (POA)"`, with the title-case issue recorded and `repaired = true`. -/
theorem title_case_rewrite_witness :
    validate_agent_output 7 [("problems", .plist [.pdict [("heading", .pstr "CKD (POA)")]])] =
      .ok ([("problems", .plist [.pdict [("heading", .pstr "Ckd (POA)")]])],
           ["Title-cased problem heading \x27CKD (POA)\x27"], true) := by
  have h := title_case_rewrite "CKD (POA)" rfl rfl rfl
  exact h

end Caseys
